import Mathlib

/-!
Verification development for `run_server.py`, the bootstrap entry point of the
workspace-mcp deployment wrapper.  The Python source is shallowly embedded:
pure helper functions become Lean functions on `String`/`List Char`, the
environment is a partial map `String → Option String`, external library calls
are abstract parameters or event names, and the two locally-implemented HTTP
handlers are embedded as pure functions from an abstract request (plus the
results of the external calls they make) to a response and a call trace.
-/

namespace RunServer

/-- The ASCII whitespace characters recognized by the Python methods `str.split()` and
`str.strip()` (space, tab, newline, carriage return, vertical tab, form feed). -/
def isPySpace (c : Char) : Bool :=
  c == ' ' || c == '\t' || c == '\n' || c == '\r' || c == '\x0b' || c == '\x0c'

/-- Whitespace-style splitting: tokens are the maximal runs of characters on
which `p` is false; empty tokens never occur (Python `str.split()` with no
separator argument).  `acc` holds the current token reversed. -/
def splitTok (p : Char → Bool) : List Char → List Char → List (List Char)
  | [], acc => if acc.isEmpty then [] else [acc.reverse]
  | c :: cs, acc =>
    if p c then
      (if acc.isEmpty then splitTok p cs [] else acc.reverse :: splitTok p cs [])
    else splitTok p cs (c :: acc)

/-- Python `str.split()` (no argument): split on runs of whitespace. -/
def pySplitWs (s : List Char) : List (List Char) :=
  splitTok isPySpace s []

/-- Python `str.strip()` restricted to a character class `p`: drop the longest
leading and trailing runs of characters satisfying `p`. -/
def pyStripChars (p : Char → Bool) (s : List Char) : List Char :=
  ((s.dropWhile p).reverse.dropWhile p).reverse

/-- Python `str.strip()` on a `String`. -/
def pyStrip (s : String) : String :=
  ⟨pyStripChars isPySpace s.toList⟩

/-- The character substitution performed by `raw.replace(",", " ")`. -/
def commaToSpace (c : Char) : Char :=
  if c == ',' then ' ' else c

/-- Embedding of `_split_services` (run_server.py lines 42-45):
`parts = [p.strip() for p in raw.replace(",", " ").split()]`
followed by `return [p for p in parts if p]`. -/
def split_services (raw : String) : List String :=
  let parts := (pySplitWs (raw.toList.map commaToSpace)).map (pyStripChars isPySpace)
  (parts.filter (fun p => !p.isEmpty)).map String.mk

/-- A character the claim counts as a separator: a comma or whitespace. -/
def isSepClaim (c : Char) : Bool :=
  c == ',' || isPySpace c

/-- Claim-side definition (from the words of the spec, to be compared with
`split_services`): the non-empty tokens of `raw` in order, where commas and
whitespace are interchangeable separators. -/
def tokensSpec (raw : String) : List String :=
  (splitTok isSepClaim raw.toList []).map String.mk

/-- The substitution that swaps commas and spaces, turning a comma-separated
list into the same list space-separated and vice versa. -/
def swapCommaSpace (c : Char) : Char :=
  if c == ',' then ' ' else if c == ' ' then ',' else c

theorem dropWhile_of_forall_false (p : Char → Bool) :
    ∀ l : List Char, (∀ c ∈ l, p c = false) → l.dropWhile p = l
  | [], _ => rfl
  | c :: cs, h => by
    simp [List.dropWhile_cons, h c (by simp)]

theorem stripChars_of_forall_false (p : Char → Bool) (l : List Char)
    (h : ∀ c ∈ l, p c = false) : pyStripChars p l = l := by
  unfold pyStripChars
  rw [dropWhile_of_forall_false p l h]
  rw [dropWhile_of_forall_false p l.reverse (fun c hc => h c (List.mem_reverse.mp hc))]
  exact List.reverse_reverse l

/-- Every token produced by `splitTok` is non-empty and free of separator
characters, provided the accumulator is separator-free. -/
theorem splitTok_tokens (p : Char → Bool) :
    ∀ (l acc : List Char), (∀ c ∈ acc, p c = false) →
      ∀ t ∈ splitTok p l acc, t ≠ [] ∧ ∀ c ∈ t, p c = false
  | [], acc, hacc => by
    intro t ht
    unfold splitTok at ht
    by_cases he : acc.isEmpty
    · simp [he] at ht
    · simp [he] at ht
      subst ht
      refine ⟨?_, fun c hc => hacc c (List.mem_reverse.mp hc)⟩
      intro hnil
      rw [List.reverse_eq_nil_iff] at hnil
      subst hnil
      simp at he
  | c :: cs, acc, hacc => by
    intro t ht
    unfold splitTok at ht
    by_cases hp : p c
    · simp only [hp, if_true] at ht
      by_cases he : acc.isEmpty
      · simp only [he, if_true] at ht
        exact splitTok_tokens p cs [] (by simp) t ht
      · simp only [he, if_false] at ht
        rcases List.mem_cons.mp ht with h1 | h2
        · subst h1
          refine ⟨?_, fun d hd => hacc d (List.mem_reverse.mp hd)⟩
          intro hnil
          rw [List.reverse_eq_nil_iff] at hnil
          subst hnil
          simp at he
        · exact splitTok_tokens p cs [] (by simp) t h2
    · simp only [hp, if_false] at ht
      refine splitTok_tokens p cs (c :: acc) ?_ t ht
      intro d hd
      rcases List.mem_cons.mp hd with h1 | h2
      · subst h1; simpa using hp
      · exact hacc d h2

/-- Replacing commas by spaces and splitting on whitespace is the same as
splitting directly on commas-or-whitespace. -/
theorem splitTok_comma (l acc : List Char) (hacc : ∀ c ∈ acc, isSepClaim c = false) :
    splitTok isPySpace (l.map commaToSpace) acc = splitTok isSepClaim l acc := by
  induction l generalizing acc with
  | nil => rfl
  | cons c cs ih =>
    by_cases hs : isSepClaim c = true
    · have hps : isPySpace (commaToSpace c) = true := by
        by_cases hc : c = ','
        · subst hc; rfl
        · have : isPySpace c = true := by
            unfold isSepClaim at hs
            simpa [hc] using hs
          simpa [commaToSpace, hc] using this
      show splitTok isPySpace (commaToSpace c :: cs.map commaToSpace) acc
          = splitTok isSepClaim (c :: cs) acc
      unfold splitTok
      simp only [hps, hs, if_true]
      by_cases he : acc.isEmpty
      · simp only [he, if_true]
        exact ih [] (by simp)
      · simp only [he, if_false]
        rw [ih [] (by simp)]
    · have hc : ¬ c = ',' := by
        intro h; subst h; simp [isSepClaim] at hs
      have hps : isPySpace c = false := by
        unfold isSepClaim at hs
        simp only [Bool.or_eq_true, not_or] at hs
        simpa using hs.2
      have hcts : commaToSpace c = c := by simp [commaToSpace, hc]
      show splitTok isPySpace (commaToSpace c :: cs.map commaToSpace) acc
          = splitTok isSepClaim (c :: cs) acc
      have hs' : isSepClaim c = false := by simpa using hs
      unfold splitTok
      rw [hcts]
      rw [if_neg (by simp [hps]), if_neg (by simp [hs'])]
      refine ih (c :: acc) ?_
      intro d hd
      rcases List.mem_cons.mp hd with h1 | h2
      · subst h1; simpa using hs
      · exact hacc d h2

theorem map_eq_map_of_forall {α β : Type} (f g : α → β) :
    ∀ l : List α, (∀ a ∈ l, f a = g a) → l.map f = l.map g
  | [], _ => rfl
  | a :: l, h => by
    simp only [List.map_cons]
    rw [h a (by simp), map_eq_map_of_forall f g l (fun b hb => h b (by simp [hb]))]

theorem isEmpty_false_of_ne_nil {α : Type} {l : List α} (h : l ≠ []) :
    l.isEmpty = false := by
  cases l with
  | nil => exact absurd rfl h
  | cons a l => rfl

theorem isPySpace_false_of_isSepClaim_false {c : Char} (h : isSepClaim c = false) :
    isPySpace c = false := by
  unfold isSepClaim at h
  cases hp : isPySpace c
  · rfl
  · rw [hp] at h; simp at h

/-- Stripping whitespace and dropping empties are no-ops on the tokens of the
comma-or-whitespace split, so `split_services` computes exactly those tokens. -/
theorem split_services_eq_tokensSpec (raw : String) :
    split_services raw = tokensSpec raw := by
  unfold split_services tokensSpec pySplitWs
  rw [splitTok_comma raw.toList [] (by simp)]
  have htok := splitTok_tokens isSepClaim raw.toList [] (by simp)
  have hmap : (splitTok isSepClaim raw.toList []).map (pyStripChars isPySpace)
      = (splitTok isSepClaim raw.toList []).map id := by
    apply map_eq_map_of_forall
    intro t ht
    have h2 := (htok t ht).2
    exact stripChars_of_forall_false isPySpace t
      (fun c hc => isPySpace_false_of_isSepClaim_false (h2 c hc))
  rw [hmap, List.map_id]
  have hfil : (splitTok isSepClaim raw.toList []).filter (fun p => !p.isEmpty)
      = splitTok isSepClaim raw.toList [] := by
    apply List.filter_eq_self.mpr
    intro t ht
    rw [isEmpty_false_of_ne_nil (htok t ht).1]
    rfl
  show List.map String.mk
      ((splitTok isSepClaim raw.toList []).filter (fun p => !p.isEmpty))
    = List.map String.mk (splitTok isSepClaim raw.toList [])
  rw [hfil]

theorem commaToSpace_swap (c : Char) :
    commaToSpace (swapCommaSpace c) = commaToSpace c := by
  unfold swapCommaSpace commaToSpace
  by_cases h1 : c = ','
  · subst h1; rfl
  · by_cases h2 : c = ' '
    · subst h2; rfl
    · simp [h1, h2]

/-- C1: `split_services raw` is exactly the list of non-empty tokens of `raw`
in order, where commas and whitespace are interchangeable separators; every
returned element is a non-empty string; and swapping commas and spaces in the
input (turning a comma-separated list into the same list space-separated)
leaves the result unchanged. -/
theorem C1_split_services_tokens (raw : String) :
    split_services raw = tokensSpec raw
      ∧ (split_services raw).all (fun t => t != "") = true
      ∧ split_services ⟨raw.toList.map swapCommaSpace⟩ = split_services raw := by
  refine ⟨split_services_eq_tokensSpec raw, ?_, ?_⟩
  · rw [split_services_eq_tokensSpec raw]
    rw [List.all_eq_true]
    intro t ht
    rcases List.mem_map.mp ht with ⟨u, hu, rfl⟩
    have hne := (splitTok_tokens isSepClaim raw.toList [] (by simp) u hu).1
    simp only [bne_iff_ne, ne_eq]
    intro h
    apply hne
    have hdata : (String.mk u).data = ("" : String).data := by rw [h]
    simpa using hdata
  · unfold split_services
    have hl : (String.mk (raw.toList.map swapCommaSpace)).toList
        = raw.toList.map swapCommaSpace := rfl
    rw [hl, List.map_map]
    rw [map_eq_map_of_forall (commaToSpace ∘ swapCommaSpace) commaToSpace raw.toList
      (fun c _ => commaToSpace_swap c)]

/-- Python string comparison (as invoked by `sorted` on `str`): lexicographic
on code points. -/
def pyStrLeList : List Char → List Char → Bool
  | [], _ => true
  | _ :: _, [] => false
  | a :: as, b :: bs => if a = b then pyStrLeList as bs else decide (a.toNat < b.toNat)

/-- Python `<=` on strings. -/
def pyStrLe (a b : String) : Bool :=
  pyStrLeList a.toList b.toList

/-- The ordering relation used by the Python builtin `sorted` on strings. -/
def PyLe (a b : String) : Prop :=
  pyStrLe a b = true

instance : DecidableRel PyLe := fun a b =>
  (inferInstance : Decidable (pyStrLe a b = true))

theorem char_eq_of_toNat_eq {a b : Char} (h : a.toNat = b.toNat) : a = b := by
  apply Char.ext
  exact UInt32.toNat.inj h

theorem pyStrLeList_total : ∀ x y : List Char,
    pyStrLeList x y = true ∨ pyStrLeList y x = true
  | [], _ => Or.inl rfl
  | _ :: _, [] => Or.inr rfl
  | a :: as, b :: bs => by
    by_cases hab : a = b
    · subst hab
      have := pyStrLeList_total as bs
      unfold pyStrLeList
      simpa using this
    · have hn : a.toNat ≠ b.toNat := fun h => hab (char_eq_of_toNat_eq h)
      rcases Nat.lt_or_gt_of_ne hn with h | h
      · left
        unfold pyStrLeList
        simp [hab, h]
      · right
        unfold pyStrLeList
        simp [Ne.symm hab, h]

theorem pyStrLeList_trans : ∀ x y z : List Char,
    pyStrLeList x y = true → pyStrLeList y z = true → pyStrLeList x z = true
  | [], _, _, _, _ => rfl
  | _ :: _, [], _, h1, _ => by simp [pyStrLeList] at h1
  | _ :: _, _ :: _, [], _, h2 => by simp [pyStrLeList] at h2
  | a :: as, b :: bs, c :: cs, h1, h2 => by
    by_cases hab : a = b
    · subst hab
      by_cases hac : a = c
      · subst hac
        unfold pyStrLeList at *
        simp only [if_pos rfl] at h1 h2 ⊢
        exact pyStrLeList_trans as bs cs h1 h2
      · unfold pyStrLeList at *
        simp only [if_pos rfl, hac, if_neg hac] at h1 h2 ⊢
        exact h2
    · by_cases hbc : b = c
      · subst hbc
        unfold pyStrLeList at *
        simp only [hab, if_neg hab] at h1 ⊢
        exact h1
      · unfold pyStrLeList at h1 h2
        simp only [if_neg hab, decide_eq_true_eq] at h1
        simp only [if_neg hbc, decide_eq_true_eq] at h2
        have hlt : a.toNat < c.toNat := Nat.lt_trans h1 h2
        have hac : ¬ a = c := by
          intro h; subst h
          exact Nat.lt_irrefl _ hlt
        unfold pyStrLeList
        simp [hac, hlt]

instance : IsTotal String PyLe :=
  ⟨fun a b => pyStrLeList_total a.toList b.toList⟩

instance : IsTrans String PyLe :=
  ⟨fun a b c h1 h2 => pyStrLeList_trans a.toList b.toList c.toList h1 h2⟩

/-- The client scopes read by the authorize-handoff handler (line 135):
`client_scopes = params.get("scope", "").split() if params.get("scope") else []`. -/
def clientScopesOf (scopeParam : Option String) : List String :=
  match scopeParam with
  | some s => if s == "" then [] else (pySplitWs s.toList).map String.mk
  | none => []

/-- Lines 136-138 of the authorize-handoff handler:
`all_scopes = set(client_scopes) | set(enabled_tool_scopes)` followed by
`sorted(all_scopes)`.  `sorted` on a set of strings is the code-point
lexicographically sorted list of the distinct elements, modelled as sorting
the deduplicated concatenation. -/
def computeScopeList (scopeParam : Option String) (enabled : List String) : List String :=
  List.insertionSort PyLe ((clientScopesOf scopeParam ++ enabled).dedup)

/-- The value assigned to `params["scope"]`: `" ".join(sorted(all_scopes))`. -/
def computeScope (scopeParam : Option String) (enabled : List String) : String :=
  String.intercalate " " (computeScopeList scopeParam enabled)

/-- C2 counterexample: with client scope `"b"` and external module scopes
`["a"]`, the scope query parameter sent to Google is `"a b"`, not the plain `"a"` of the external
module: the handler does merge, deduplicate and sort locally. -/
theorem C2_scope_counterexample :
    computeScope (some "b") ["a"] = "a b"
      ∧ computeScope (some "b") ["a"] ≠ String.intercalate " " ["a"] := by
  constructor
  · rfl
  · decide

/-- C2 (amended): the scope query parameter is computed locally by the
handler: the list it space-joins is sorted by Python string order, free of
duplicates, and contains exactly the union of the client-supplied scope tokens
and the scopes supplied by the external scope module. -/
theorem C2_scope_merge_local (scopeParam : Option String) (enabled : List String) :
    List.Sorted PyLe (computeScopeList scopeParam enabled)
      ∧ (computeScopeList scopeParam enabled).Nodup
      ∧ ∀ s : String, s ∈ computeScopeList scopeParam enabled ↔
          s ∈ clientScopesOf scopeParam ∨ s ∈ enabled := by
  refine ⟨List.sorted_insertionSort PyLe _, ?_, ?_⟩
  · exact (List.perm_insertionSort PyLe _).nodup_iff.mpr
      (List.nodup_dedup _)
  · intro s
    simp only [computeScopeList, List.mem_insertionSort, List.mem_dedup, List.mem_append]

/-- The `tool_imports` dictionary (lines 67-78): service key to the module
whose import registers the tools of that service. -/
def tool_imports : List (String × String) :=
  [("gmail", "gmail.gmail_tools"),
   ("drive", "gdrive.drive_tools"),
   ("calendar", "gcalendar.calendar_tools"),
   ("docs", "gdocs.docs_tools"),
   ("sheets", "gsheets.sheets_tools"),
   ("chat", "gchat.chat_tools"),
   ("forms", "gforms.forms_tools"),
   ("slides", "gslides.slides_tools"),
   ("tasks", "gtasks.tasks_tools"),
   ("search", "gsearch.search_tools")]

/-- `list(tool_imports.keys())`. -/
def toolImportKeys : List String :=
  tool_imports.map Prod.fst

/-- Dictionary access `tool_imports[s]`, as used under the guard
`if s in tool_imports`. -/
def lookupModule (s : String) : Option String :=
  (tool_imports.find? (fun p => p.1 == s)).map Prod.snd

/-- The import loop (lines 93-95): for each requested service, import its
module when the key is known and silently skip it otherwise.  The result is
the list of modules imported, in order; the membership guard makes the loop
total, so no exception is possible for unknown names. -/
def importLoop (services : List String) : List String :=
  services.filterMap lookupModule

/-- C5: the tool-module activator maps exactly the ten documented keys, and a
requested service name outside this set causes no import and no error (the
loop is total and skips it). -/
theorem C5_tool_imports_fixed_keys :
    toolImportKeys = ["gmail", "drive", "calendar", "docs", "sheets",
        "chat", "forms", "slides", "tasks", "search"]
      ∧ ∀ s : String, s ∉ toolImportKeys → importLoop [s] = [] := by
  refine ⟨rfl, ?_⟩
  intro s hs
  have hlook : lookupModule s = none := by
    unfold lookupModule
    rw [List.find?_eq_none.mpr ?_]
    · rfl
    · intro p hp hbeq
      apply hs
      rw [← beq_iff_eq.mp hbeq]
      exact List.mem_map.mpr ⟨p, hp, rfl⟩
  simp [importLoop, List.filterMap_cons, hlook]

theorem C5_tool_imports_fixed_keys_witness :
    "unknown" ∉ toolImportKeys ∧ importLoop ["unknown"] = [] :=
  ⟨by decide, C5_tool_imports_fixed_keys.2 "unknown" (by decide)⟩

/-- Python `x or d` on an optional string (`os.getenv(...) or ""`): a missing
or empty value falls through to the default. -/
def pyOrStr (x : Option String) (d : String) : String :=
  match x with
  | some s => if s == "" then d else s
  | none => d

/-- Python `x or d` where `x` is `None` or a list (`services_filter or ...`):
`None` and the empty list are both falsy and fall through to the default. -/
def pyOrList (x : Option (List String)) (d : List String) : List String :=
  match x with
  | some l => if l.isEmpty then d else l
  | none => d

/-- Lines 58-60 and 80-88: the service names chosen for import, from the
`TOOL_TIER` and `TOOLS` environment variables.  `suggested` stands for the
`suggested_services` component returned by the external
`resolve_tools_from_tier`. -/
def servicesToImport (tool_tier_env tools_env : Option String)
    (suggested : List String) : List String :=
  let tool_tier := pyStrip (pyOrStr tool_tier_env "")
  let services_raw := pyStrip (pyOrStr tools_env "")
  let services_filter : Option (List String) :=
    if services_raw == "" then none else some (split_services services_raw)
  if tool_tier == "" then pyOrList services_filter toolImportKeys
  else pyOrList services_filter suggested

/-- The modules imported by one run of `main`, as a function of the tool
configuration. -/
def mainImports (tool_tier_env tools_env : Option String)
    (suggested : List String) : List String :=
  importLoop (servicesToImport tool_tier_env tools_env suggested)

/-- C6 counterexample: with `TOOLS=gmail` main imports only the Gmail module,
while with `TOOLS` unset it also imports the Drive module (and the rest of the
ten); the set of imported modules is not the same across configurations. -/
theorem C6_imports_counterexample :
    mainImports none (some "gmail") [] = ["gmail.gmail_tools"]
      ∧ "gdrive.drive_tools" ∈ mainImports none none []
      ∧ "gdrive.drive_tools" ∉ mainImports none (some "gmail") [] := by
  refine ⟨by decide, by decide, by decide⟩

/-- C6 (amended): main imports a subset of a fixed set of ten tool modules,
but which subset depends on `TOOLS` and `TOOL_TIER`: every imported module is
one of the ten known ones, and with both variables unset all ten are
imported. -/
theorem C6_imports_fixed_superset (tool_tier_env tools_env : Option String)
    (suggested : List String) :
    (∀ m ∈ mainImports tool_tier_env tools_env suggested,
        m ∈ tool_imports.map Prod.snd)
      ∧ mainImports none none suggested = tool_imports.map Prod.snd := by
  constructor
  · intro m hm
    rcases List.mem_filterMap.mp hm with ⟨s, _, hlook⟩
    unfold lookupModule at hlook
    rcases Option.map_eq_some'.mp hlook with ⟨p, hfind, hsnd⟩
    have hp : p ∈ tool_imports := List.mem_of_find?_eq_some hfind
    exact hsnd ▸ List.mem_map.mpr ⟨p, hp, rfl⟩
  · rfl

theorem C6_imports_fixed_superset_witness :
    "gmail.gmail_tools" ∈ tool_imports.map Prod.snd :=
  (C6_imports_fixed_superset none (some "gmail") []).1 "gmail.gmail_tools" (by decide)

/-- Value of a run of decimal digits. -/
def digitsToNat (ds : List Char) : Nat :=
  ds.foldl (fun a c => a * 10 + (c.toNat - 48)) 0

/-- Decimal digit-run parser: a value exactly when non-empty and all digits. -/
def parseDigits (ds : List Char) : Option Nat :=
  if !ds.isEmpty && ds.all Char.isDigit then some (digitsToNat ds) else none

/-- Model of Python `int(s)` on decimal strings: surrounding whitespace is
ignored, then one optional sign and a non-empty run of digits; anything else
raises `ValueError`, modelled as `none`.  (CPython additionally accepts
underscore digit grouping and non-ASCII decimal digits; such inputs are not
modelled.)  `pyIntCore` handles the stripped character list. -/
def pyIntCore (t : List Char) : Option Int :=
  if t.headD ' ' == '+' then (parseDigits t.tail).map Int.ofNat
  else if t.headD ' ' == '-' then (parseDigits t.tail).map (fun n => -(Int.ofNat n))
  else (parseDigits t).map Int.ofNat

def pyInt (s : String) : Option Int :=
  pyIntCore (pyStripChars isPySpace s.toList)

/-- Line 258: `port = int(os.getenv("PORT", os.getenv("WORKSPACE_MCP_PORT", "8000")))`.
The environment is a partial map; `none` models an unset variable and the
`Option Int` result is `none` when `int` would raise. -/
def resolvePort (env : String → Option String) : Option Int :=
  pyInt ((env "PORT").getD ((env "WORKSPACE_MCP_PORT").getD "8000"))

/-- C4 counterexample: two environments that agree on `PORT` (both leave it
unset) produce different ports, because the fallback consults the
`WORKSPACE_MCP_PORT` environment variable, a configuration input rather than a
fixed default. -/
theorem C4_port_counterexample :
    ((fun k => if k == "WORKSPACE_MCP_PORT" then some "9" else none) :
        String → Option String) "PORT" = ((fun _ => none) : String → Option String) "PORT"
      ∧ resolvePort (fun k => if k == "WORKSPACE_MCP_PORT" then some "9" else none)
          ≠ resolvePort (fun _ => none) := by
  refine ⟨by decide, by decide⟩

theorem beq_char_false_of_isDigit {c : Char} (d : Char) (h : c.isDigit = true)
    (hd : d.isDigit = false) : (c == d) = false := by
  cases hc : c == d
  · rfl
  · have hcd : c = d := beq_iff_eq.mp hc
    subst hcd
    rw [h] at hd
    cases hd

theorem isPySpace_false_of_isDigit {c : Char} (h : c.isDigit = true) :
    isPySpace c = false := by
  unfold isPySpace
  rw [beq_char_false_of_isDigit ' ' h (by decide),
    beq_char_false_of_isDigit '\t' h (by decide),
    beq_char_false_of_isDigit '\n' h (by decide),
    beq_char_false_of_isDigit '\r' h (by decide),
    beq_char_false_of_isDigit '\x0b' h (by decide),
    beq_char_false_of_isDigit '\x0c' h (by decide)]
  rfl

/-- C4 (amended): the listen port is determined by `PORT` with fallback to the
`WORKSPACE_MCP_PORT` environment variable and then the fixed default `"8000"`:
a set `PORT` is parsed irrespective of every other variable, an unset `PORT`
defers to `WORKSPACE_MCP_PORT`, with both unset the port is 8000, and `int`
maps a decimal digit string to its decimal value. -/
theorem C4_port_resolution (env : String → Option String) :
    (∀ s : String, env "PORT" = some s → resolvePort env = pyInt s)
      ∧ (env "PORT" = none → ∀ t : String,
          env "WORKSPACE_MCP_PORT" = some t → resolvePort env = pyInt t)
      ∧ (env "PORT" = none → env "WORKSPACE_MCP_PORT" = none →
          resolvePort env = some 8000)
      ∧ ∀ ds : List Char, ds ≠ [] → (∀ c ∈ ds, c.isDigit = true) →
          pyInt (String.mk ds) = some (Int.ofNat (digitsToNat ds)) := by
  refine ⟨?_, ?_, ?_, ?_⟩
  · intro s hs
    unfold resolvePort
    rw [hs]
    rfl
  · intro h1 t h2
    unfold resolvePort
    rw [h1, h2]
    rfl
  · intro h1 h2
    unfold resolvePort
    rw [h1, h2]
    rfl
  · intro ds hne hdig
    have hstrip : pyStripChars isPySpace ds = ds :=
      stripChars_of_forall_false isPySpace ds
        (fun c hc => isPySpace_false_of_isDigit (hdig c hc))
    have htl : (String.mk ds).toList = ds := rfl
    unfold pyInt pyIntCore
    rw [htl, hstrip]
    cases ds with
    | nil => exact absurd rfl hne
    | cons d rest =>
      have hd : d.isDigit = true := hdig d (by simp)
      rw [List.headD_cons]
      rw [beq_char_false_of_isDigit '+' hd (by decide),
        beq_char_false_of_isDigit '-' hd (by decide)]
      simp only [Bool.false_eq_true, if_false]
      unfold parseDigits
      rw [if_pos ?_]
      · rfl
      · rw [List.all_eq_true.mpr hdig]
        rfl

theorem C4_port_resolution_witness :
    resolvePort (fun k => if k == "PORT" then some "81" else none) = pyInt "81"
      ∧ pyInt (String.mk ['8', '1']) = some (Int.ofNat (digitsToNat ['8', '1'])) := by
  constructor
  · exact (C4_port_resolution (fun k => if k == "PORT" then some "81" else none)).1
      "81" (by decide)
  · exact (C4_port_resolution (fun _ => none)).2.2.2 ['8', '1'] (by decide) (by decide)

/-- The imported OAuth library handler functions a route may delegate to. -/
inductive LibHandler
  | handle_oauth_protected_resource
  | handle_oauth_authorization_server
  | handle_oauth_client_config
  | handle_proxy_token_exchange
  | handle_oauth_register
deriving DecidableEq

/-- Body of a registered route handler: either a one-line delegation
`return await f(request)` to an imported library function `f`, or one of the
two locally-implemented handoff handlers. -/
inductive RouteHandler
  | lib (f : LibHandler)
  | authorize_handoff
  | callback_handoff
deriving DecidableEq

def RouteHandler.isLib : RouteHandler → Bool
  | .lib _ => true
  | _ => false

structure Route where
  path : String
  methods : List String
  handler : RouteHandler
deriving DecidableEq

/-- The seven `server.custom_route` registrations performed by `main`
(lines 100-152), in registration order. -/
def registeredRoutes : List Route :=
  [⟨"/.well-known/oauth-protected-resource", ["GET", "OPTIONS"],
      .lib .handle_oauth_protected_resource⟩,
   ⟨"/.well-known/oauth-authorization-server", ["GET", "OPTIONS"],
      .lib .handle_oauth_authorization_server⟩,
   ⟨"/.well-known/oauth-client", ["GET", "OPTIONS"],
      .lib .handle_oauth_client_config⟩,
   ⟨"/oauth2/authorize-handoff", ["GET"], .authorize_handoff⟩,
   ⟨"/oauth2/token", ["POST", "OPTIONS"], .lib .handle_proxy_token_exchange⟩,
   ⟨"/oauth2/register", ["POST", "OPTIONS"], .lib .handle_oauth_register⟩,
   ⟨"/oauth2callback-handoff", ["GET"], .callback_handoff⟩]

/-- C3 counterexample: the route for `/oauth2/authorize-handoff` is registered
with a locally-defined handler (which itself builds the Google redirect,
including the local scope merge), not a delegation to an imported library
function, so not every registered handler is supplied by the external OAuth
module. -/
theorem C3_routes_counterexample :
    (Route.mk "/oauth2/authorize-handoff" ["GET"] RouteHandler.authorize_handoff)
        ∈ registeredRoutes
      ∧ RouteHandler.authorize_handoff.isLib = false
      ∧ registeredRoutes.all (fun r => r.handler.isLib) = false := by
  refine ⟨by decide, rfl, by decide⟩

/-- C3 (amended): `main` registers exactly the seven claimed paths, in this
order; five delegate immediately to imported OAuth library handlers, while
`/oauth2/authorize-handoff` and `/oauth2callback-handoff` are locally-defined
handlers that do local request processing. -/
theorem C3_routes_registration :
    registeredRoutes.map Route.path
        = ["/.well-known/oauth-protected-resource",
           "/.well-known/oauth-authorization-server",
           "/.well-known/oauth-client",
           "/oauth2/authorize-handoff",
           "/oauth2/token",
           "/oauth2/register",
           "/oauth2callback-handoff"]
      ∧ registeredRoutes.all
          (fun r => r.handler.isLib
            || (r.path == "/oauth2/authorize-handoff")
            || (r.path == "/oauth2callback-handoff")) = true
      ∧ (registeredRoutes.filter (fun r => !r.handler.isLib)).map Route.path
          = ["/oauth2/authorize-handoff", "/oauth2callback-handoff"] := by
  refine ⟨by decide, by decide, by decide⟩

/-- The externally-visible library calls of one run of `main`, in order.
Import and route-registration events carry their argument. -/
inductive Event
  | reload_oauth_config
  | configure_file_logging
  | check_credentials_directory_permissions
  | set_transport_mode
  | configure_server_for_http
  | resolve_tools_from_tier
  | set_enabled_tool_names
  | wrap_server_tool_method
  | set_enabled_services_for_scopes
  | import_module (m : String)
  | filter_server_tools
  | custom_route (path : String)
  | server_run
deriving DecidableEq

/-- Configuration inputs of one run of `main`: the result of the external
`is_stateless_mode()`, the two tool environment variables, and the
`suggested_services` component of the external `resolve_tools_from_tier`. -/
structure MainConfig where
  stateless : Bool
  tool_tier_env : Option String
  tools_env : Option String
  suggested : List String

/-- The sequence of library calls made by one run of `main`
(lines 48-98, the seven route registrations, and line 259), in program
order, ending with `server.run`. -/
def mainTrace (cfg : MainConfig) : List Event :=
  [Event.reload_oauth_config, Event.configure_file_logging]
  ++ (if cfg.stateless then [] else [Event.check_credentials_directory_permissions])
  ++ [Event.set_transport_mode, Event.configure_server_for_http]
  ++ (if pyStrip (pyOrStr cfg.tool_tier_env "") == ""
      then [Event.set_enabled_tool_names]
      else [Event.resolve_tools_from_tier, Event.set_enabled_tool_names])
  ++ [Event.wrap_server_tool_method, Event.set_enabled_services_for_scopes]
  ++ (importLoop (servicesToImport cfg.tool_tier_env cfg.tools_env cfg.suggested)).map
      Event.import_module
  ++ [Event.filter_server_tools]
  ++ registeredRoutes.map (fun r => Event.custom_route r.path)
  ++ [Event.server_run]

/-- C7 counterexample: two runs differing only in the `TOOLS` environment
variable make different sequences of library calls (their import events
differ), so the sequence is not the same on every run. -/
theorem C7_trace_counterexample :
    mainTrace ⟨false, none, some "gmail", []⟩ ≠ mainTrace ⟨false, none, none, []⟩ := by
  decide

/-- The calls whose presence in the trace depends on the configuration: the
credentials-directory check, the tier resolution, and the per-service
imports. -/
def isVariableEvent : Event → Bool
  | .check_credentials_directory_permissions => true
  | .resolve_tools_from_tier => true
  | .import_module _ => true
  | _ => false

theorem filter_drops_imports (xs : List String) :
    (xs.map Event.import_module).filter (fun e => !isVariableEvent e) = [] := by
  induction xs with
  | nil => rfl
  | cons x xs ih => simp [List.filter_cons, isVariableEvent, ih]

/-- C7 (amended): the phase order of `main` is fixed and the network listener
is started strictly last: for every configuration, removing the
configuration-dependent calls (credentials check, tier resolution, imports)
from the trace leaves one fixed sequence, and `server.run` is the final call
of every trace; but the full sequence itself varies with the configuration. -/
theorem C7_trace_fixed_order (cfg : MainConfig) :
    (mainTrace cfg).filter (fun e => !isVariableEvent e)
        = [Event.reload_oauth_config, Event.configure_file_logging,
           Event.set_transport_mode, Event.configure_server_for_http,
           Event.set_enabled_tool_names,
           Event.wrap_server_tool_method, Event.set_enabled_services_for_scopes,
           Event.filter_server_tools]
          ++ registeredRoutes.map (fun r => Event.custom_route r.path)
          ++ [Event.server_run]
      ∧ (mainTrace cfg).getLast? = some Event.server_run := by
  constructor
  · unfold mainTrace
    rw [List.filter_append, List.filter_append, List.filter_append,
      List.filter_append, List.filter_append, List.filter_append,
      List.filter_append, List.filter_append]
    rw [filter_drops_imports]
    have h1 : (if cfg.stateless then ([] : List Event)
        else [Event.check_credentials_directory_permissions]).filter
          (fun e => !isVariableEvent e) = [] := by
      cases cfg.stateless <;> rfl
    have h2 : (if pyStrip (pyOrStr cfg.tool_tier_env "") == ""
        then [Event.set_enabled_tool_names]
        else [Event.resolve_tools_from_tier, Event.set_enabled_tool_names]).filter
          (fun e => !isVariableEvent e) = [Event.set_enabled_tool_names] := by
      by_cases hc : pyStrip (pyOrStr cfg.tool_tier_env "") == ""
      · rw [if_pos hc]; rfl
      · rw [if_neg hc]; rfl
    rw [h1, h2]
    rfl
  · unfold mainTrace
    simp [List.getLast?_cons, List.getLast?_append, List.getLast?_concat]

/-- Python `html.escape` (with the default `quote=True`): escape the five
HTML-special characters. -/
def escapeChar (c : Char) : String :=
  if c = '&' then "&amp;"
  else if c = '<' then "&lt;"
  else if c = '>' then "&gt;"
  else if c = '\"' then "&quot;"
  else if c = '\x27' then "&#x27;"
  else String.mk [c]

def htmlEscape (s : String) : String :=
  String.join (s.toList.map escapeChar)

/-- The query parameters of a request to `/oauth2callback-handoff`, as read by
`request.query_params.get(...)` (lines 160-162); `some ""` models a parameter
that is present with an empty value, `none` an absent one. -/
structure CallbackReq where
  state : Option String
  code : Option String
  error : Option String

/-- Python truthiness of an optional string: `None` and `""` are falsy. -/
def pyTruthy : Option String → Bool
  | none => false
  | some s => !(s == "")

/-- Python `str()` of an optional string as interpolated into an f-string:
`None` prints as `"None"`. -/
def pyStr : Option String → String
  | none => "None"
  | some s => s

/-- The fields of the credentials object returned by `handle_auth_callback`
that the handler reads (lines 199-213). -/
structure Credentials where
  token : Option String
  refresh_token : Option String
  token_uri : Option String
  client_id : Option String
  client_secret : Option String
  scopes : List String
  expiry : Option String

/-- Results of the external calls the handler makes: `check_client_secrets()`
(an error message, or falsy for success), `handle_auth_callback(...)` (a
message of a raised exception, or the `(verified_user_id, credentials)` pair) and
`store.store_session(...)` (which may raise); `base_url` is
`get_oauth_config().get_oauth_base_url()`. -/
structure CallbackEnv where
  base_url : String
  check_client_secrets : Option String
  auth_result : Except String (String × Credentials)
  store_result : Except String Unit

structure HttpResponse where
  status : Nat
  content : String

/-- The two externally-observable calls the claims speak about. -/
inductive CbEvent
  | handle_auth_callback
  | store_session
deriving DecidableEq

/-- The HTML token page built on success (lines 212-255): only the
html-escaped access token, the user id and the MCP URL are interpolated. -/
def successPage (base_url verified_user_id : String)
    (credentials : Credentials) : String :=
  let token := pyOrStr credentials.token ""
  let token_safe := htmlEscape token
  let user_safe := htmlEscape (pyOrStr (some verified_user_id) "")
  let mcp_url := base_url ++ "/mcp"
  "<!doctype html>\n<html>\n  <head>\n    <meta charset=\"utf-8\" />\n    <title>Workspace MCP Token</title>\n    <meta name=\"viewport\" content=\"width=device-width, initial-scale=1\" />\n    <style>\n      body \x7b font-family: -apple-system, BlinkMacSystemFont, \"Segoe UI\", Roboto, Arial, sans-serif; max-width: 900px; margin: 40px auto; padding: 0 18px; \x7d\n      h1 \x7b font-size: 22px; margin-bottom: 10px; \x7d\n      .note \x7b color: #444; margin: 10px 0 18px; \x7d\n      .warn \x7b background: #fff3cd; border: 1px solid #ffeeba; padding: 12px; border-radius: 8px; \x7d\n      pre \x7b background: #0b1020; color: #e6edf3; padding: 14px; border-radius: 10px; overflow-x: auto; \x7d\n      code \x7b font-family: ui-monospace, SFMono-Regular, Menlo, Monaco, Consolas, \"Liberation Mono\", \"Courier New\", monospace; \x7d\n      .row \x7b display: flex; gap: 10px; flex-wrap: wrap; margin: 12px 0; \x7d\n      button \x7b border: 1px solid #ddd; background: #fff; padding: 10px 14px; border-radius: 10px; cursor: pointer; \x7d\n      button:hover \x7b background: #f6f6f6; \x7d\n      .small \x7b font-size: 13px; color: #666; \x7d\n    </style>\n  </head>\n  <body>\n    <h1>Workspace MCP access token</h1>\n    <div class=\"note\">Authenticated as <b>"
  ++ (user_safe)
  ++ "</b>.</div>\n    <div class=\"warn\">\n      <b>Security:</b> This is a short-lived Google access token. Share it only with trusted agents.\n      When it expires, re-run the browser flow to get a new token.\n    </div>\n    <h2 style=\"margin-top: 18px; font-size: 16px;\">Token</h2>\n    <div class=\"row\">\n      <button onclick=\"navigator.clipboard.writeText(document.getElementById(\x27tok\x27).innerText)\">Copy token</button>\n      <button onclick=\"navigator.clipboard.writeText(document.getElementById(\x27curl\x27).innerText)\">Copy curl</button>\n    </div>\n    <pre id=\"tok\">"
  ++ (token_safe)
  ++ "</pre>\n    <h2 style=\"margin-top: 18px; font-size: 16px;\">Test</h2>\n    <pre id=\"curl\">curl -H \x27Authorization: Bearer "
  ++ (token_safe)
  ++ "\x27 \x27"
  ++ (htmlEscape mcp_url)
  ++ "\x27</pre>\n    <div class=\"small\">MCP endpoint: <code>"
  ++ (htmlEscape mcp_url)
  ++ "</code></div>\n  </body>\n</html>\n"

/-- The `/oauth2callback-handoff` handler (lines 152-256), embedded as a pure
function of the request parameters and the results of the external calls it
makes.  The second component is the list of invocations of
`handle_auth_callback` and `store.store_session`, in order; the `try/except`
around `store_session` only logs, so the store result is never consulted for
the response. -/
def oauth2_callback_handoff (req : CallbackReq) (env : CallbackEnv) :
    HttpResponse × List CbEvent :=
  if pyTruthy req.error then
    (⟨400, "<pre>" ++ htmlEscape ("Authentication failed: Google returned an error: "
        ++ pyStr req.error ++ ". State: " ++ pyStr req.state ++ ".") ++ "</pre>"⟩, [])
  else if !pyTruthy req.code then
    (⟨400, "<pre>" ++ htmlEscape
        "Authentication failed: No authorization code received from Google." ++ "</pre>"⟩, [])
  else if pyTruthy env.check_client_secrets then
    (⟨500, "<pre>" ++ htmlEscape (pyStr env.check_client_secrets) ++ "</pre>"⟩, [])
  else
    match env.auth_result with
    | Except.error e =>
        (⟨500, "<pre>" ++ htmlEscape e ++ "</pre>"⟩, [CbEvent.handle_auth_callback])
    | Except.ok (verified_user_id, credentials) =>
        (⟨200, successPage env.base_url verified_user_id credentials⟩,
         [CbEvent.handle_auth_callback, CbEvent.store_session])

/-- C8 counterexample: a request whose query string contains an `error`
parameter with an empty value (for example `?error=&code=abc&state=st`) is not
rejected: Python truthiness treats the empty string like an absent parameter,
so the handler proceeds to the token exchange and, with the external calls
succeeding, returns HTTP 200 and invokes `handle_auth_callback`. -/
theorem C8_callback_counterexample :
    (oauth2_callback_handoff ⟨some "st", some "abc", some ""⟩
        ⟨"https://h", none,
          Except.ok ("u@example.com", ⟨some "tok", none, none, none, none, [], none⟩),
          Except.ok ()⟩).1.status = 200
      ∧ CbEvent.handle_auth_callback ∈
          (oauth2_callback_handoff ⟨some "st", some "abc", some ""⟩
            ⟨"https://h", none,
              Except.ok ("u@example.com", ⟨some "tok", none, none, none, none, [], none⟩),
              Except.ok ()⟩).2 := by
  exact ⟨rfl, by decide⟩

/-- C8 (amended): for every request whose query string carries an `error`
parameter with a non-empty value, or whose `code` parameter is missing or
empty, the handler returns HTTP 400 and invokes neither
`handle_auth_callback` nor `store_session`. -/
theorem C8_callback_early_reject (req : CallbackReq) (env : CallbackEnv)
    (h : pyTruthy req.error = true ∨ pyTruthy req.code = false) :
    (oauth2_callback_handoff req env).1.status = 400
      ∧ (oauth2_callback_handoff req env).2 = [] := by
  rcases h with h | h
  · unfold oauth2_callback_handoff
    rw [if_pos h]
    exact ⟨rfl, rfl⟩
  · by_cases he : pyTruthy req.error = true
    · unfold oauth2_callback_handoff
      rw [if_pos he]
      exact ⟨rfl, rfl⟩
    · unfold oauth2_callback_handoff
      rw [if_neg he, if_pos (by rw [h]; rfl)]
      exact ⟨rfl, rfl⟩

theorem C8_callback_early_reject_witness :
    (oauth2_callback_handoff ⟨none, none, some "denied"⟩
        ⟨"b", none, Except.error "x", Except.ok ()⟩).1.status = 400
      ∧ (oauth2_callback_handoff ⟨none, none, some "denied"⟩
          ⟨"b", none, Except.error "x", Except.ok ()⟩).2 = [] :=
  C8_callback_early_reject ⟨none, none, some "denied"⟩
    ⟨"b", none, Except.error "x", Except.ok ()⟩ (Or.inl (by decide))

/-- C9: the success page depends on the credentials only through the access
token: two credentials with the same `token` produce identical page content
for the same user id and base URL, whatever their `refresh_token`,
`client_secret` or other fields; only the html-escaped access token, user id
and MCP URL are interpolated. -/
theorem C9_page_independent_of_secrets (base_url verified_user_id : String)
    (c1 c2 : Credentials) (h : c1.token = c2.token) :
    successPage base_url verified_user_id c1
      = successPage base_url verified_user_id c2 := by
  unfold successPage
  rw [h]

theorem C9_page_independent_of_secrets_witness :
    successPage "https://h" "u" ⟨some "t", some "r1", none, none, some "s1", [], none⟩
      = successPage "https://h" "u" ⟨some "t", some "r2", none, none, some "s2", ["a"], none⟩ :=
  C9_page_independent_of_secrets "https://h" "u"
    ⟨some "t", some "r1", none, none, some "s1", [], none⟩
    ⟨some "t", some "r2", none, none, some "s2", ["a"], none⟩ rfl

/-- C10: a failure of `store.store_session` after a successful token exchange
is swallowed: the handler output is identical whether storing succeeded or
raised, and in both cases the response is the HTTP 200 token page. -/
theorem C10_store_failure_swallowed (req : CallbackReq) (base_url : String)
    (check : Option String) (uid : String) (cred : Credentials)
    (r1 r2 : Except String Unit)
    (he : pyTruthy req.error = false) (hc : pyTruthy req.code = true)
    (hs : pyTruthy check = false) :
    oauth2_callback_handoff req ⟨base_url, check, Except.ok (uid, cred), r1⟩
        = oauth2_callback_handoff req ⟨base_url, check, Except.ok (uid, cred), r2⟩
      ∧ (oauth2_callback_handoff req
          ⟨base_url, check, Except.ok (uid, cred), r1⟩).1.status = 200 := by
  unfold oauth2_callback_handoff
  rw [if_neg (by simp [he]), if_neg (by simp [hc]), if_neg (by simp [hs])]
  exact ⟨rfl, rfl⟩

theorem C10_store_failure_swallowed_witness :
    oauth2_callback_handoff ⟨some "st", some "abc", none⟩
        ⟨"b", none, Except.ok ("u", ⟨some "t", none, none, none, none, [], none⟩),
          Except.ok ()⟩
      = oauth2_callback_handoff ⟨some "st", some "abc", none⟩
          ⟨"b", none, Except.ok ("u", ⟨some "t", none, none, none, none, [], none⟩),
            Except.error "store failed"⟩
      ∧ (oauth2_callback_handoff ⟨some "st", some "abc", none⟩
          ⟨"b", none, Except.ok ("u", ⟨some "t", none, none, none, none, [], none⟩),
            Except.ok ()⟩).1.status = 200 :=
  C10_store_failure_swallowed ⟨some "st", some "abc", none⟩ "b" none "u"
    ⟨some "t", none, none, none, none, [], none⟩ (Except.ok ()) (Except.error "store failed")
    (by decide) (by decide) (by decide)

end RunServer
